import Mathlib

/-!
Shallow embedding of `src/public/data/comp_osm.py` (OSMChina-coverage).

The program resolves an administrative place name against an OSM extract,
counts typed features at two radii, and turns the counts into a bounded
completeness score.  Python dictionaries of tags become association lists
with unique keys; Python floats on the score path become `Rat`; fallible
code paths (dictionary `KeyError`, unbound-variable `NameError`) become
`Option`.
-/

/-- A tag mapping: key/value pairs, keys unique per element (the Python
side builds these as `dict` comprehensions over `<tag k= v= />` children). -/
abbrev Tags := List (String × String)

/-- `tags.get(k)` on a Python dict: the value at `k`, if present. -/
def getTag (tags : Tags) (k : String) : Option String :=
  (tags.find? (fun p => p.1 == k)).map (fun p => p.2)

/-- `k in tags` on a Python dict. -/
def hasTag (tags : Tags) (k : String) : Bool :=
  (getTag tags k).isSome

/-- Whether the character list `p` starts the character list `s`
(helper for the substring test of Python's `in` on strings). -/
def charsStart : List Char → List Char → Bool
  | [], _ => true
  | _ :: _, [] => false
  | a :: as, b :: bs => a == b && charsStart as bs

/-- Whether `p` occurs contiguously inside `s` (character lists). -/
def charsContain (p : List Char) : List Char → Bool
  | [] => charsStart p []
  | b :: bs => charsStart p (b :: bs) || charsContain p bs

/-- Python's `p in s` on strings: contiguous substring containment. -/
def substrB (p s : String) : Bool :=
  charsContain p.data s.data

/-- `addr_4 in tags.get(key)` guarded by `key in tags`: false when the key
is absent, substring containment otherwise. -/
def optSubstr (q : String) (o : Option String) : Bool :=
  match o with
  | some v => substrB q v
  | none => false

/-- The node/relation elements of a parsed OSM XML graph. -/
structure OsmNode where
  id : Int
  lon : Rat
  lat : Rat
  tags : Tags
deriving DecidableEq

structure OsmWay where
  id : Int
  tags : Tags
deriving DecidableEq

structure OsmMember where
  mtype : String
  ref : Int
  role : String
deriving DecidableEq

structure OsmRel where
  id : Int
  tags : Tags
  members : List OsmMember
deriving DecidableEq

/-- An in-memory parse of a downloaded OSM dataset, in document order. -/
structure OsmGraph where
  nodes : List OsmNode
  ways : List OsmWay
  relations : List OsmRel
deriving DecidableEq

/-- `match_name(addr_4, tags, exact_match)` from `infer_node_and_boundary`.
The exact branch compares `addr_4` for equality against the ten name-family
tags (`name`, `official_name`, `alt_name`, `old_name`, `short_name` and
their `:zh` variants); each Python clause `"k" in tags and addr_4 ==
tags.get("k")` is exactly `getTag tags k == some addr_4`.  The fuzzy branch
tests substring containment against only the five non-`:zh` tags.  Its
first clause `addr_4 in tags.get("name")` is unguarded in Python and would
raise `TypeError` when `name` is absent; every call site filters out
elements without a `name` tag first, so `false` is the faithful
reachable-behaviour translation. -/
def match_name (addr_4 : String) (tags : Tags) (exact_match : Bool) : Bool :=
  if exact_match then
    (getTag tags "name" == some addr_4) ||
    (getTag tags "name:zh" == some addr_4) ||
    (getTag tags "official_name" == some addr_4) ||
    (getTag tags "official_name:zh" == some addr_4) ||
    (getTag tags "alt_name" == some addr_4) ||
    (getTag tags "alt_name:zh" == some addr_4) ||
    (getTag tags "old_name" == some addr_4) ||
    (getTag tags "old_name:zh" == some addr_4) ||
    (getTag tags "short_name" == some addr_4) ||
    (getTag tags "short_name:zh" == some addr_4)
  else
    optSubstr addr_4 (getTag tags "name") ||
    optSubstr addr_4 (getTag tags "official_name") ||
    optSubstr addr_4 (getTag tags "alt_name") ||
    optSubstr addr_4 (getTag tags "old_name") ||
    optSubstr addr_4 (getTag tags "short_name")

/-- The place-candidate test of the local-mode node scan: `capital`,
`place` or `place:CN` key present, or `amenity=townhall`, or
`office=government`. -/
def isPlaceCand (tags : Tags) : Bool :=
  hasTag tags "capital" || hasTag tags "place" || hasTag tags "place:CN" ||
  (getTag tags "amenity" == some "townhall") ||
  (getTag tags "office" == some "government")

/-!  ## Scoring (`cap`, `compute_score`)  -/

/-- `cap(x, m) = min(x, m)`. -/
def cap (x m : Rat) : Rat := min x m

/-- The per-place feature row consumed by `compute_score`: resolved ids
plus the count fields filled in by `count_features` at each radius. -/
structure Row where
  node : Int
  boundary : Int
  places_total_3km : Nat
  road_trunk_3km : Nat
  road_primary_3km : Nat
  road_secondary_3km : Nat
  road_tertiary_3km : Nat
  road_res_uncl_1km : Nat
  road_res_uncl_3km : Nat
  road_bus_stop_3km : Nat
  road_parking_3km : Nat
  road_fuel_3km : Nat
  road_types_3km : Nat
  amenity_gov_3km : Nat
  amenity_health_1km : Nat
  amenity_school_1km : Nat
  amenity_police_1km : Nat
  amenity_post_1km : Nat
  amenity_bank_1km : Nat
  amenity_shop_1km : Nat
  buildings_total_1km : Nat
  buildings_total_3km : Nat
  landuse_types_3km : Nat
deriving DecidableEq

/-- `scores[0]`: existence sub-score, final `cap(..., 20)`. -/
def score1 (row : Row) : Rat :=
  cap ((if row.node > 0 then (7 : Rat) else 0)
      + (if row.boundary > 0 then
           (8 : Rat) + (if row.node = -1 then (7 : Rat) else 0)
         else 0)
      + cap (row.places_total_3km : Rat) 5) 20

/-- `scores[1]`: roads sub-score.  The trunk/primary/secondary presence
bonus, the tertiary cap and the residential/unclassified density term are
summed and capped at 20; the bus-stop/parking/fuel presence bonuses and
the road-type cap are added afterwards; the result is capped at 30. -/
def score2 (row : Row) : Rat :=
  cap (cap ((if row.road_trunk_3km + row.road_primary_3km + row.road_secondary_3km > 0
              then (5 : Rat) else 0)
          + cap (row.road_tertiary_3km : Rat) 5
          + ((row.road_res_uncl_1km : Rat) * (3 / 10)
              + (row.road_res_uncl_3km : Rat) * (2 / 10))) 20
      + (if row.road_bus_stop_3km > 0 then (2 : Rat) else 0)
      + (if row.road_parking_3km > 0 then (2 : Rat) else 0)
      + (if row.road_fuel_3km > 0 then (2 : Rat) else 0)
      + cap (row.road_types_3km : Rat) 4) 30

/-- `scores[2]`: amenities sub-score, final `cap(..., 30)`. -/
def score3 (row : Row) : Rat :=
  cap ((if row.amenity_gov_3km > 0 then (5 : Rat) else 0)
      + (if row.amenity_health_1km > 0 then (5 : Rat) else 0)
      + (if row.amenity_school_1km > 0 then (5 : Rat) else 0)
      + (if row.amenity_police_1km > 0 then (5 : Rat) else 0)
      + (if row.amenity_post_1km > 0 then (2 : Rat) else 0)
      + (if row.amenity_bank_1km > 0 then (2 : Rat) else 0)
      + cap (row.amenity_shop_1km : Rat) 6) 30

/-- `scores[3]`: land-use and buildings sub-score, final `cap(..., 20)`. -/
def score4 (row : Row) : Rat :=
  cap (cap (((row.buildings_total_1km : Rat) + (row.buildings_total_3km : Rat)) * (1 / 10)) 12
      + cap (row.landuse_types_3km : Rat) 8) 20

/-- `compute_score(row)`: the four sub-scores.  Python fills `scores[i]`
independently of the other entries, so the tuple of the four per-category
computations is the whole function. -/
def compute_score (row : Row) : Rat × Rat × Rat × Rat :=
  (score1 row, score2 row, score3 row, score4 row)

/-!  ## Safe HTTP layer (`safe_post`)  -/

/-- One run of the retry loop of `safe_post`, starting at attempt number
`attempt` with `remaining` attempts left.  The oracle gives each attempt's
outcome (`some r`: the POST succeeded with response `r`; `none`: a
`RequestException` was caught).  Returns the final result together with
the list of sleep durations performed, in order (`time.sleep(2 * attempt)`
after each failed attempt, including the last). -/
def safePostFrom (oracle : Nat → Option String) (attempt : Nat) :
    Nat → Option String × List Nat
  | 0 => (none, [])
  | remaining + 1 =>
    match oracle attempt with
    | some r => (some r, [])
    | none =>
      let rest := safePostFrom oracle (attempt + 1) remaining
      (rest.1, 2 * attempt :: rest.2)

/-- `safe_post(...)` with `max_retry` attempts numbered `1, ..., max_retry`
(the Python default is `max_retry = 5`); never raises to its caller, and
returns `none` once every attempt has failed. -/
def safe_post (oracle : Nat → Option String) (max_retry : Nat) :
    Option String × List Nat :=
  safePostFrom oracle 1 max_retry

/-!  ## Acquisition cache and the force-update decision  -/

/-- `get_osm_data` at its cache/fetch decision point: `cache` is the
contents of the `.osm` cache file if it exists, `network` is what a fetch
would return (`none`: Overpass failed after retries).  The result pairs
the returned XML with whether a network fetch happened. -/
def get_osm_data (cache : Option String) (force_update : Bool)
    (network : Option String) : Option String × Bool :=
  match cache, force_update with
  | some c, false => (some c, false)
  | _, _ => (network, true)

/-- The `force_update` decision of `process_places`: set exactly when the
resolver returned both coordinates and at least one differs from the
input coordinate. -/
def forceUpdateFlag (lon lat : Rat) (nlon nlat : Option Rat) : Bool :=
  match nlon, nlat with
  | some a, some b => !(a == lon) || !(b == lat)
  | _, _ => false

/-!  ## Feature counting (`count_features`)  -/

/-- The `roads` counter dictionary of `count_features`, in key order. -/
structure Roads where
  trunk : Nat
  primary : Nat
  secondary : Nat
  tertiary : Nat
  res_uncl : Nat
  bus_stop : Nat
  parking : Nat
  fuel : Nat
deriving DecidableEq

/-- The `amenities` counter dictionary of `count_features`, in key order. -/
structure Amenities where
  gov : Nat
  health : Nat
  school : Nat
  police : Nat
  post : Nat
  bank : Nat
  shop : Nat
deriving DecidableEq

/-- The mutable accumulators of `count_features`; the Python sets become
deduplicating lists (insertion order is irrelevant to the reported
cardinalities). -/
structure CountState where
  places : List Int
  roads : Roads
  road_types : List String
  amenities : Amenities
  buildings : List Int
  landuse_types : List String
deriving DecidableEq

/-- `s.add(x)` on a Python set. -/
def setAdd [BEq α] (s : List α) (x : α) : List α :=
  if s.contains x then s else s ++ [x]

/-- `if h in roads: roads[h] += 1 elif h in ("residential", "unclassified"):
roads["res_uncl"] += 1` — note that a literal `highway=bus_stop` (or any
other key of the dictionary) hits the first branch. -/
def roadKeyBump (r : Roads) (h : String) : Roads :=
  if h = "trunk" then { r with trunk := r.trunk + 1 }
  else if h = "primary" then { r with primary := r.primary + 1 }
  else if h = "secondary" then { r with secondary := r.secondary + 1 }
  else if h = "tertiary" then { r with tertiary := r.tertiary + 1 }
  else if h = "res_uncl" then { r with res_uncl := r.res_uncl + 1 }
  else if h = "bus_stop" then { r with bus_stop := r.bus_stop + 1 }
  else if h = "parking" then { r with parking := r.parking + 1 }
  else if h = "fuel" then { r with fuel := r.fuel + 1 }
  else if h = "residential" ∨ h = "unclassified" then { r with res_uncl := r.res_uncl + 1 }
  else r

/-- The allow-list feeding the `road_types` set. -/
def minorRoadTypes : List String :=
  ["residential", "unclassified", "service", "track",
   "cycleway", "pedestrian", "footway", "path", "steps"]

/-- The trailing `for h in ("leisure", "tourism", "waterway")` block shared
by the way and node loops: each present key is added (as a key name) to
the `landuse_types` set. -/
def keyTypeAdd (s : List String) (tags : Tags) : List String :=
  (["leisure", "tourism", "waterway"]).foldl
    (fun acc h => if hasTag tags h then setAdd acc h else acc) s

/-- One iteration of the way loop of `count_features`.  Returns `none` for
the Python `KeyError`: `if "landuse" in tags or "natrual" in tags:
landuse_types.add(tags["landuse"])` subscripts `landuse` even when only
the (misspelt) `natrual` key made the guard true. -/
def wayStep (s : CountState) (w : OsmWay) : Option CountState :=
  let tags := w.tags
  let s :=
    match getTag tags "highway" with
    | some h =>
      let s := { s with roads := roadKeyBump s.roads h }
      if minorRoadTypes.contains h then { s with road_types := setAdd s.road_types h } else s
    | none => s
  let s := if hasTag tags "building" then { s with buildings := setAdd s.buildings w.id } else s
  let s := if hasTag tags "man_made" then { s with buildings := setAdd s.buildings w.id } else s
  let s := if getTag tags "amenity" == some "townhall" || getTag tags "office" == some "government"
           then { s with amenities.gov := s.amenities.gov + 1 } else s
  let s := if getTag tags "amenity" == some "hospital" || getTag tags "amenity" == some "clinic"
           then { s with amenities.health := s.amenities.health + 1 } else s
  let s := if getTag tags "amenity" == some "school" || getTag tags "education" == some "school"
           then { s with amenities.school := s.amenities.school + 1 } else s
  let s := if getTag tags "amenity" == some "police"
           then { s with amenities.police := s.amenities.police + 1 } else s
  let s := if getTag tags "amenity" == some "post_office"
           then { s with amenities.post := s.amenities.post + 1 } else s
  let s := if getTag tags "amenity" == some "bank"
           then { s with amenities.bank := s.amenities.bank + 1 } else s
  let s := if hasTag tags "shop" || hasTag tags "cuisine" ||
              getTag tags "tourism" == some "hotel" || getTag tags "tourism" == some "apartment"
           then { s with amenities.shop := s.amenities.shop + 1 } else s
  let s := if hasTag tags "bus" || getTag tags "highway" == some "bus_stop" || hasTag tags "public_transport"
           then { s with roads.bus_stop := s.roads.bus_stop + 1 } else s
  let s := if getTag tags "amenity" == some "parking"
           then { s with roads.parking := s.roads.parking + 1 } else s
  let s := if getTag tags "amenity" == some "fuel"
           then { s with roads.fuel := s.roads.fuel + 1 } else s
  if hasTag tags "landuse" || hasTag tags "natrual" then
    match getTag tags "landuse" with
    | some v => some { s with landuse_types := keyTypeAdd (setAdd s.landuse_types v) tags }
    | none => none
  else
    some { s with landuse_types := keyTypeAdd s.landuse_types tags }

/-- One iteration of the node loop of `count_features`.  `lastWay` is the
Python variable `way` left over from the way loop (`g.ways.getLast?`):
line 391 adds `way.get("id")` — not the node's id — to the buildings set,
and raises `NameError` (here `none`) when the graph has no way at all.
Line 375 increments `amenities["police"]` for a school-tagged node. -/
def nodeCountStep (lastWay : Option OsmWay) (s : CountState) (n : OsmNode) :
    Option CountState :=
  let tags := n.tags
  let s := if hasTag tags "place" && hasTag tags "name"
           then { s with places := setAdd s.places n.id } else s
  let s := if getTag tags "amenity" == some "townhall" || getTag tags "office" == some "government"
           then { s with amenities.gov := s.amenities.gov + 1 } else s
  let s := if getTag tags "amenity" == some "hospital" || getTag tags "amenity" == some "clinic"
           then { s with amenities.health := s.amenities.health + 1 } else s
  let s := if getTag tags "amenity" == some "school" || getTag tags "education" == some "school"
           then { s with amenities.police := s.amenities.police + 1 } else s
  let s := if getTag tags "amenity" == some "police"
           then { s with amenities.police := s.amenities.police + 1 } else s
  let s := if getTag tags "amenity" == some "post_office"
           then { s with amenities.post := s.amenities.post + 1 } else s
  let s := if getTag tags "amenity" == some "bank"
           then { s with amenities.bank := s.amenities.bank + 1 } else s
  let s := if hasTag tags "shop" || hasTag tags "cuisine" ||
              getTag tags "tourism" == some "hotel" || getTag tags "tourism" == some "apartment"
           then { s with amenities.shop := s.amenities.shop + 1 } else s
  let s := if hasTag tags "bus" || getTag tags "highway" == some "bus_stop" || hasTag tags "public_transport"
           then { s with roads.bus_stop := s.roads.bus_stop + 1 } else s
  let s := if getTag tags "amenity" == some "fuel"
           then { s with roads.fuel := s.roads.fuel + 1 } else s
  let s := if getTag tags "amenity" == some "parking"
           then { s with roads.parking := s.roads.parking + 1 } else s
  let afterBuildings : Option CountState :=
    if hasTag tags "man_made" then
      match lastWay with
      | some w => some { s with buildings := setAdd s.buildings w.id }
      | none => none
    else some s
  afterBuildings.map (fun s => { s with landuse_types := keyTypeAdd s.landuse_types tags })

/-- `count_features(osm_root)`: folds the way loop then the node loop and
reports `(roads, amenities, len(places), len(buildings), len(road_types),
len(landuse_types))`; `none` when the Python code would raise. -/
def count_features (g : OsmGraph) :
    Option (Roads × Amenities × Nat × Nat × Nat × Nat) := do
  let init : CountState :=
    ⟨[], ⟨0, 0, 0, 0, 0, 0, 0, 0⟩, [], ⟨0, 0, 0, 0, 0, 0, 0⟩, [], []⟩
  let s ← g.ways.foldlM wayStep init
  let s ← g.nodes.foldlM (nodeCountStep g.ways.getLast?) s
  return (s.roads, s.amenities, s.places.length, s.buildings.length,
          s.road_types.length, s.landuse_types.length)

/-!  ## Local-mode entity resolution (`infer_node_and_boundary`)  -/

/-- The mutable state of the local-mode node scan: `node_id`, the working
corrected coordinate, and the `place_cands` dictionary (id-keyed; modelled
as the insertion-ordered list of collected candidate nodes, where a later
insertion for the same id wins on lookup, as in a Python dict). -/
structure InferState where
  nodeId : Int
  nodeLon : Option Rat
  nodeLat : Option Rat
  cands : List OsmNode
deriving DecidableEq

/-- `place_cands.get(ref)`: last insertion for `ref` wins. -/
def candLookup (cands : List OsmNode) (ref : Int) : Option OsmNode :=
  cands.reverse.find? (fun c => c.id == ref)

/-- One iteration of the `for n in osm_root.xpath("//node")` loop of
`infer_node_and_boundary` (local mode): skip unnamed nodes; collect place
candidates; while `node_id < 0`, a fuzzy name match fixes the working
coordinate, and a `place`-tagged candidate is accepted as `node_id`
outright only when it also carries `capital` or exact-matches. -/
def nodeStep (addr_4 : String) (s : InferState) (n : OsmNode) : InferState :=
  if hasTag n.tags "name" = false then s
  else if isPlaceCand n.tags then
    let s1 := { s with cands := s.cands ++ [n] }
    if s1.nodeId < 0 ∧ match_name addr_4 n.tags false = true then
      let s2 := { s1 with nodeLon := some n.lon, nodeLat := some n.lat }
      if hasTag n.tags "place" then
        if hasTag n.tags "capital" || match_name addr_4 n.tags true then
          { s2 with nodeId := n.id }
        else s2
      else s2
    else s1
  else s

/-- The `for m in r.findall("member")` loop inside the relation scan:
only node members with role `label` or `admin_centre` that resolve in
`place_cands` are considered; each such member demotes `node_id` to `-2`
and adopts the member's coordinate; promotion to the member's real id
(requiring a fuzzy-matching `place` node that carries `capital` or whose
enclosing relation r exact-matches — `tags` at line 210 is the relation's
tag dict) stops the member loop.  `rtags` is the enclosing relation's tag
mapping; the state is `(node_id, node_lon, node_lat)`. -/
def memberLoop (addr_4 : String) (rtags : Tags) (cands : List OsmNode) :
    Int × Option Rat × Option Rat → List OsmMember → Int × Option Rat × Option Rat
  | s, [] => s
  | s, m :: rest =>
    if m.mtype ≠ "node" then memberLoop addr_4 rtags cands s rest
    else if ¬(m.role = "label" ∨ m.role = "admin_centre") then
      memberLoop addr_4 rtags cands s rest
    else
      match candLookup cands m.ref with
      | none => memberLoop addr_4 rtags cands s rest
      | some node =>
        if hasTag node.tags "place" ∧ match_name addr_4 node.tags false = true then
          if hasTag node.tags "capital" || match_name addr_4 rtags true then
            (node.id, some node.lon, some node.lat)
          else memberLoop addr_4 rtags cands (-2, some node.lon, some node.lat) rest
        else memberLoop addr_4 rtags cands (-2, some node.lon, some node.lat) rest

/-- The relation scan state: resolution result so far plus `boundary_id`. -/
structure RelState where
  nodeId : Int
  nodeLon : Option Rat
  nodeLat : Option Rat
  boundaryId : Int
deriving DecidableEq

/-- `boundary=administrative` or `boundary=historic`. -/
def isBoundaryRel (tags : Tags) : Bool :=
  getTag tags "boundary" == some "administrative" ||
  getTag tags "boundary" == some "historic"

/-- The `for r in osm_root.xpath("//relation")` loop: every named
boundary relation fuzzy-matching the segment overwrites `boundary_id` and
runs the member loop; scanning stops on the first exact-match boundary. -/
def relLoop (addr_4 : String) (cands : List OsmNode) :
    RelState → List OsmRel → RelState
  | s, [] => s
  | s, r :: rest =>
    if hasTag r.tags "name" = false then relLoop addr_4 cands s rest
    else if isBoundaryRel r.tags ∧ match_name addr_4 r.tags false = true then
      let t := memberLoop addr_4 r.tags cands (s.nodeId, s.nodeLon, s.nodeLat) r.members
      let s2 : RelState := ⟨t.1, t.2.1, t.2.2, r.id⟩
      if match_name addr_4 r.tags true then s2 else relLoop addr_4 cands s2 rest
    else relLoop addr_4 cands s rest

/-- The state after the node scan of local-mode resolution. -/
def nodePassState (addr_4 : String) (g : OsmGraph) : InferState :=
  g.nodes.foldl (nodeStep addr_4) ⟨-1, none, none, []⟩

/-- The state after the relation scan of local-mode resolution
(`boundary_id` starts at `-1`). -/
def relPassState (addr_4 : String) (g : OsmGraph) : RelState :=
  relLoop addr_4 (nodePassState addr_4 g).cands
    ⟨(nodePassState addr_4 g).nodeId, (nodePassState addr_4 g).nodeLon,
     (nodePassState addr_4 g).nodeLat, -1⟩ g.relations

/-- The `osm_root != None` branch of `infer_node_and_boundary`: local-mode
resolution of the last address segment `addr_4` against a cached graph.
Returns `(node_id, boundary_id, node_lon, node_lat)`.  (The `else` branch
issues its own Overpass query and is network-bound; the claims below are
about local mode.) -/
def infer_node_and_boundary_local (addr_4 : String) (g : OsmGraph) :
    Int × Int × Option Rat × Option Rat :=
  ((relPassState addr_4 g).nodeId, (relPassState addr_4 g).boundaryId,
   (relPassState addr_4 g).nodeLon, (relPassState addr_4 g).nodeLat)

/-!  ## Helper lemmas  -/

lemma charsStart_self : ∀ l : List Char, charsStart l l = true := by
  intro l
  induction l with
  | nil => rfl
  | cons a as ih => simp [charsStart, ih]

lemma substrB_self (s : String) : substrB s s = true := by
  unfold substrB
  cases h : s.data with
  | nil => rfl
  | cons b bs => simp [charsContain, charsStart_self]

lemma match_name_fuzzy_of_name_eq (addr_4 : String) (tags : Tags)
    (h : getTag tags "name" = some addr_4) :
    match_name addr_4 tags false = true := by
  simp [match_name, h, optSubstr, substrB_self]

lemma match_name_exact_of_name_eq (addr_4 : String) (tags : Tags)
    (h : getTag tags "name" = some addr_4) :
    match_name addr_4 tags true = true := by
  simp [match_name, h]

lemma hasTag_name_of_getTag (tags : Tags) (v : String)
    (h : getTag tags "name" = some v) : hasTag tags "name" = true := by
  simp [hasTag, h]

/-!  ## C1 — score bounds  -/

/-- C1: for every row, `compute_score` returns four sub-scores with
`s1 ≤ 20`, `s2 ≤ 30`, `s3 ≤ 30`, `s4 ≤ 20`, and the total
`s1 + s2 + s3 + s4` is at most `100`. -/
theorem compute_score_bounds (row : Row) :
    (compute_score row).1 ≤ 20 ∧ (compute_score row).2.1 ≤ 30 ∧
    (compute_score row).2.2.1 ≤ 30 ∧ (compute_score row).2.2.2 ≤ 20 ∧
    (compute_score row).1 + (compute_score row).2.1 +
      (compute_score row).2.2.1 + (compute_score row).2.2.2 ≤ 100 := by
  have h1 : score1 row ≤ 20 := min_le_right _ _
  have h2 : score2 row ≤ 30 := min_le_right _ _
  have h3 : score3 row ≤ 30 := min_le_right _ _
  have h4 : score4 row ≤ 20 := min_le_right _ _
  exact ⟨h1, h2, h3, h4, by simp only [compute_score]; linarith⟩

/-!  ## C3 — order of caps in the roads sub-score  -/

/-- The roads sub-score written in the spec's order: presence bonus,
tertiary cap and density term summed and capped at 20, then the
bus-stop/parking/fuel bonuses and road-type cap, then a final cap at 30. -/
def s2_spec_order (row : Row) : Rat :=
  let presence : Rat :=
    if row.road_trunk_3km + row.road_primary_3km + row.road_secondary_3km > 0 then 5 else 0
  let tert : Rat := min (row.road_tertiary_3km : Rat) 5
  let density : Rat :=
    (row.road_res_uncl_1km : Rat) * (3 / 10) + (row.road_res_uncl_3km : Rat) * (2 / 10)
  let firstCap : Rat := min (presence + tert + density) 20
  let bonuses : Rat :=
    (if row.road_bus_stop_3km > 0 then (2 : Rat) else 0)
    + (if row.road_parking_3km > 0 then (2 : Rat) else 0)
    + (if row.road_fuel_3km > 0 then (2 : Rat) else 0)
    + min (row.road_types_3km : Rat) 4
  min (firstCap + bonuses) 30

/-- The same terms under a single final cap at 30, with no intermediate
cap at 20. -/
def s2_single_cap (row : Row) : Rat :=
  min ((if row.road_trunk_3km + row.road_primary_3km + row.road_secondary_3km > 0
          then (5 : Rat) else 0)
      + min (row.road_tertiary_3km : Rat) 5
      + ((row.road_res_uncl_1km : Rat) * (3 / 10) + (row.road_res_uncl_3km : Rat) * (2 / 10))
      + (if row.road_bus_stop_3km > 0 then (2 : Rat) else 0)
      + (if row.road_parking_3km > 0 then (2 : Rat) else 0)
      + (if row.road_fuel_3km > 0 then (2 : Rat) else 0)
      + min (row.road_types_3km : Rat) 4) 30

/-- A row near the cap boundary: one trunk way, five tertiary ways and
fifty residential/unclassified ways at 1 km, nothing else. -/
def rowNearCap : Row :=
  ⟨-1, -1, 0, 1, 0, 0, 5, 50, 0, 0, 0, 0, 0, 0, 0, 0, 0, 0, 0, 0, 0, 0, 0⟩

/-- C3: the roads sub-score is computed in exactly the spec's order —
partial sum capped at 20 before the presence bonuses, final cap at 30 —
and the intermediate cap changes the result relative to a single final
cap (on `rowNearCap` the code yields 20 where a single cap would give 25). -/
theorem roads_score_order :
    (∀ row : Row, (compute_score row).2.1 = s2_spec_order row) ∧
    (compute_score rowNearCap).2.1 = 20 ∧ s2_single_cap rowNearCap = 25 ∧
    (compute_score rowNearCap).2.1 ≠ s2_single_cap rowNearCap := by
  refine ⟨?_, ?_, ?_, ?_⟩
  · intro row
    show score2 row = s2_spec_order row
    simp only [score2, s2_spec_order, cap]
    congr 1
    ring
  · show score2 rowNearCap = 20
    norm_num [score2, cap, rowNearCap, min_def]
  · norm_num [s2_single_cap, rowNearCap, min_def]
  · show score2 rowNearCap ≠ s2_single_cap rowNearCap
    norm_num [score2, s2_single_cap, cap, rowNearCap, min_def]

/-!  ## C5 — fuzzy matching does not consult the `:zh` variants  -/

/-- The five non-`:zh` name-family substring tests (the amended reading
of the fuzzy-match rule). -/
def fuzzy_match_spec (addr_4 : String) (tags : Tags) : Bool :=
  optSubstr addr_4 (getTag tags "name") ||
  optSubstr addr_4 (getTag tags "official_name") ||
  optSubstr addr_4 (getTag tags "alt_name") ||
  optSubstr addr_4 (getTag tags "old_name") ||
  optSubstr addr_4 (getTag tags "short_name")

/-- C5 counterexample: a node whose only tag containing the segment is
`name:zh` (here `"abc"` is a substring of `name:zh` but of no non-`:zh`
name-family tag) is NOT a fuzzy match, contrary to the claim. -/
theorem fuzzy_zh_counterexample :
    substrB "abc" "xxabcyy" = true ∧
    match_name "abc" [("name", "zzz"), ("name:zh", "xxabcyy")] false = false :=
  ⟨rfl, rfl⟩

/-- C5 (amended): fuzzy matching tests substring containment against only
the non-`:zh` name-family tags `name`, `official_name`, `alt_name`,
`old_name`, `short_name`; the `:zh` variants are consulted only by the
exact branch (e.g. a bare `name:zh` equality is an exact match). -/
theorem fuzzy_match_non_zh (addr_4 : String) (tags : Tags) :
    match_name addr_4 tags false = fuzzy_match_spec addr_4 tags ∧
    match_name "abc" [("name:zh", "abc")] true = true :=
  ⟨rfl, rfl⟩

/-!  ## C2 — school-tagged nodes increment the police counter  -/

/-- A 1 km graph with one `highway=primary` way and one `amenity=school`
node (claim C2's example). -/
def gSchoolNode : OsmGraph :=
  ⟨[⟨2, 0, 0, [("amenity", "school")]⟩], [⟨1, [("highway", "primary")]⟩], []⟩

/-- C2 (code bug): on a graph with one `highway=primary` way and one
`amenity=school` node, `count_features` reports `primary = 1` but
`school = 0` and `police = 1` — the node loop's school branch increments
`amenities["police"]` (source line 375), not `amenities["school"]`. -/
theorem school_node_increments_police :
    count_features gSchoolNode =
      some (⟨0, 1, 0, 0, 0, 0, 0, 0⟩, ⟨0, 0, 0, 1, 0, 0, 0⟩, 0, 0, 0, 0) := by
  rfl

/-!  ## C6 — man-made nodes contribute the last way's id, not their own  -/

/-- One `building` way (id 1) and one `man_made` node (id 2). -/
def gManMadeNode : OsmGraph :=
  ⟨[⟨2, 0, 0, [("man_made", "tower")]⟩], [⟨1, [("building", "yes")]⟩], []⟩

/-- C6 (code bug): the node loop adds `way.get("id")` — the id of the last
way iterated, here 1 — to the buildings set instead of the node's own id 2,
so the building count is 1 where the claim expects the two distinct ids
`{1, 2}`, i.e. 2. -/
theorem man_made_node_adds_last_way_id :
    count_features gManMadeNode =
      some (⟨0, 0, 0, 0, 0, 0, 0, 0⟩, ⟨0, 0, 0, 0, 0, 0, 0⟩, 0, 1, 0, 0) := by
  rfl

/-!  ## C10 — count_features is not total  -/

/-- A graph whose only way is tagged `natrual=water` (no `landuse` key). -/
def gNatrualWay : OsmGraph := ⟨[], [⟨1, [("natrual", "water")]⟩], []⟩

/-- A graph with a `man_made` node and no way element at all. -/
def gManMadeNoWay : OsmGraph := ⟨[⟨2, 0, 0, [("man_made", "tower")]⟩], [], []⟩

/-- C10 (code bug): `count_features` is not total — a way tagged `natrual`
without `landuse` hits the unguarded `tags["landuse"]` subscript
(`KeyError`), and a `man_made` node in a way-less graph reads the unbound
loop variable `way` (`NameError`); both are `none` in the embedding. -/
theorem count_features_raises :
    count_features gNatrualWay = none ∧ count_features gManMadeNoWay = none :=
  ⟨rfl, rfl⟩

/-!  ## C7 — force-update is triggered exactly by a changed coordinate  -/

/-- C7: the pipeline sets `force_update` exactly when the resolver
returned both coordinates and at least one of them differs from the input
coordinate; and with `force_update` false an existing cache entry is
served without any fetch, so both radius acquisitions are cache hits. -/
theorem force_update_iff (lon lat : Rat) (nlon nlat : Option Rat) :
    (forceUpdateFlag lon lat nlon nlat = true ↔
      ∃ a b, nlon = some a ∧ nlat = some b ∧ (a ≠ lon ∨ b ≠ lat)) ∧
    (∀ c network, get_osm_data (some c) false network = (some c, false)) := by
  constructor
  · cases nlon <;> cases nlat <;> simp [forceUpdateFlag]
  · intro c network
    rfl

/-!  ## C9 — safe_post retry behaviour  -/

lemma safePostFrom_all_none (oracle : Nat → Option String) :
    ∀ (n a : Nat), (∀ i, a ≤ i → i < a + n → oracle i = none) →
      safePostFrom oracle a n = (none, (List.range n).map (fun j => 2 * (a + j))) := by
  intro n
  induction n with
  | zero => intro a _; rfl
  | succ m ih =>
    intro a h
    have ha : oracle a = none := h a (Nat.le_refl a) (by omega)
    have hrest := ih (a + 1) (fun i h1 h2 => h i (by omega) (by omega))
    simp only [safePostFrom, ha, hrest]
    refine congrArg (Prod.mk none) ?_
    rw [List.range_succ_eq_map, List.map_cons, List.map_map]
    have hf : ((fun j => 2 * (a + j)) ∘ Nat.succ) = fun j => 2 * (a + 1 + j) := by
      funext j
      simp only [Function.comp]
      omega
    rw [hf]
    simp

lemma safePostFrom_none_forces (oracle : Nat → Option String) :
    ∀ (n a : Nat), (safePostFrom oracle a n).1 = none →
      ∀ i, a ≤ i → i < a + n → oracle i = none := by
  intro n
  induction n with
  | zero => intro a _ i _ h2; omega
  | succ m ih =>
    intro a h i h1 h2
    cases ha : oracle a with
    | some r => rw [safePostFrom, ha] at h; exact absurd h (by simp)
    | none =>
      rw [safePostFrom, ha] at h
      rcases Nat.eq_or_lt_of_le h1 with he | hlt
      · rw [← he]; exact ha
      · exact ih (a + 1) h i (by omega) (by omega)

lemma safePostFrom_first_some (oracle : Nat → Option String) (a n : Nat)
    (r : String) (h : oracle a = some r) :
    safePostFrom oracle a (n + 1) = (some r, []) := by
  rw [safePostFrom, h]

lemma safePostFrom_congr (o1 o2 : Nat → Option String) :
    ∀ (n a : Nat), (∀ i, a ≤ i → i < a + n → o1 i = o2 i) →
      safePostFrom o1 a n = safePostFrom o2 a n := by
  intro n
  induction n with
  | zero => intro a _; rfl
  | succ m ih =>
    intro a h
    have ha : o1 a = o2 a := h a (Nat.le_refl a) (by omega)
    have hrest := ih (a + 1) (fun i h1 h2 => h i (by omega) (by omega))
    rw [safePostFrom, safePostFrom, ha, hrest]

/-- C9: with the default `max_retry = 5`, `safe_post` (a) returns the
failure value `none` exactly when all five attempts fail, (b) then having
slept `2 × attempt` seconds after each of the five failed attempts,
(c) returns the response with no sleep when the first attempt succeeds,
and (d) consults at most the five attempts numbered 1..5 (so it can never
raise an outcome beyond them to its caller). -/
theorem safe_post_five_attempts (oracle : Nat → Option String) :
    ((safe_post oracle 5).1 = none ↔ ∀ i, 1 ≤ i → i ≤ 5 → oracle i = none)
    ∧ ((∀ i, 1 ≤ i → i ≤ 5 → oracle i = none) →
        safe_post oracle 5 = (none, [2, 4, 6, 8, 10]))
    ∧ (∀ r, oracle 1 = some r → safe_post oracle 5 = (some r, []))
    ∧ (∀ oracle2 : Nat → Option String,
        (∀ i, 1 ≤ i → i ≤ 5 → oracle i = oracle2 i) →
        safe_post oracle 5 = safe_post oracle2 5) := by
  have hall : (∀ i, 1 ≤ i → i ≤ 5 → oracle i = none) →
      safe_post oracle 5 = (none, [2, 4, 6, 8, 10]) := by
    intro h
    exact safePostFrom_all_none oracle 5 1 (fun i h1 h2 => h i h1 (by omega))
  refine ⟨⟨?_, ?_⟩, hall, ?_, ?_⟩
  · intro h i h1 h2
    exact safePostFrom_none_forces oracle 5 1 h i h1 (by omega)
  · intro h
    rw [hall h]
  · intro r hr
    exact safePostFrom_first_some oracle 1 4 r hr
  · intro oracle2 h
    exact safePostFrom_congr oracle oracle2 5 1 (fun i h1 h2 => h i h1 (by omega))

/-- Witness for C9 at concrete oracles: the all-fail oracle sleeps
`[2, 4, 6, 8, 10]` and returns `none`; an immediately succeeding oracle
returns at once with no sleeps. -/
theorem safe_post_five_attempts_witness :
    safe_post (fun _ => none) 5 = (none, [2, 4, 6, 8, 10]) ∧
    safe_post (fun _ => some "ok") 5 = (some "ok", []) :=
  ⟨(safe_post_five_attempts (fun _ => none)).2.1 (fun _ _ _ => rfl),
   (safe_post_five_attempts (fun _ => some "ok")).2.2.1 "ok" rfl⟩

/-!  ## C4 — exact-match boundary wins regardless of order  -/

/-- C4: when the relation list holds one boundary relation `A` whose
`name` exactly equals the query segment and one boundary relation `B`
whose name family only fuzzy-matches it (fuzzy yes, exact no), the
returned `boundary_id` is `A.id` in either scan order: `A` first stops
the scan at `A`, and `B` first is overwritten by `A`, which then stops
the scan. -/
theorem boundary_exact_tie_break (addr_4 : String) (nodes : List OsmNode)
    (ways : List OsmWay) (A B : OsmRel)
    (hAname : getTag A.tags "name" = some addr_4)
    (hAbound : isBoundaryRel A.tags = true)
    (hBname : hasTag B.tags "name" = true)
    (hBbound : isBoundaryRel B.tags = true)
    (hBfuzzy : match_name addr_4 B.tags false = true)
    (hBexact : match_name addr_4 B.tags true = false) :
    (infer_node_and_boundary_local addr_4 ⟨nodes, ways, [A, B]⟩).2.1 = A.id ∧
    (infer_node_and_boundary_local addr_4 ⟨nodes, ways, [B, A]⟩).2.1 = A.id := by
  have hAfuzzy := match_name_fuzzy_of_name_eq addr_4 A.tags hAname
  have hAexact := match_name_exact_of_name_eq addr_4 A.tags hAname
  have hAn := hasTag_name_of_getTag A.tags addr_4 hAname
  constructor <;>
    simp [infer_node_and_boundary_local, relPassState, relLoop,
          hAn, hAfuzzy, hAexact, hAbound, hBname, hBbound, hBfuzzy, hBexact]

/-- The exactly named boundary relation of the C4 witness. -/
def relExact : OsmRel := ⟨10, [("name", "X"), ("boundary", "administrative")], []⟩

/-- The substring-only boundary relation of the C4 witness. -/
def relFuzzy : OsmRel := ⟨20, [("name", "bigXtown"), ("boundary", "administrative")], []⟩

/-- Witness for C4: with segment `"X"`, exact relation id 10 and fuzzy
relation id 20, both scan orders return boundary id 10. -/
theorem boundary_exact_tie_break_witness :
    (infer_node_and_boundary_local "X" ⟨[], [], [relExact, relFuzzy]⟩).2.1 = relExact.id ∧
    (infer_node_and_boundary_local "X" ⟨[], [], [relFuzzy, relExact]⟩).2.1 = relExact.id :=
  boundary_exact_tie_break "X" [] [] relExact relFuzzy rfl rfl rfl rfl rfl rfl

/-!  ## C8 — sentinel result on graphs with no matching candidates  -/

lemma nodeStep_preserves (addr_4 : String) (s : InferState) (n : OsmNode)
    (h : ¬(isPlaceCand n.tags = true ∧ match_name addr_4 n.tags false = true)) :
    (nodeStep addr_4 s n).nodeId = s.nodeId ∧
    (nodeStep addr_4 s n).nodeLon = s.nodeLon ∧
    (nodeStep addr_4 s n).nodeLat = s.nodeLat := by
  unfold nodeStep
  split
  · exact ⟨rfl, rfl, rfl⟩
  · split
    · rename_i h1 h2
      rw [if_neg]
      · exact ⟨rfl, rfl, rfl⟩
      · intro hc
        exact h ⟨h2, hc.2⟩
    · exact ⟨rfl, rfl, rfl⟩

lemma nodeFold_preserves (addr_4 : String) :
    ∀ (ns : List OsmNode) (s : InferState),
      (∀ n ∈ ns, ¬(isPlaceCand n.tags = true ∧ match_name addr_4 n.tags false = true)) →
      (ns.foldl (nodeStep addr_4) s).nodeId = s.nodeId ∧
      (ns.foldl (nodeStep addr_4) s).nodeLon = s.nodeLon ∧
      (ns.foldl (nodeStep addr_4) s).nodeLat = s.nodeLat := by
  intro ns
  induction ns with
  | nil => intro s _; exact ⟨rfl, rfl, rfl⟩
  | cons n ns ih =>
    intro s h
    have hn := nodeStep_preserves addr_4 s n (h n (by simp))
    have hrest := ih (nodeStep addr_4 s n) (fun m hm => h m (by simp [hm]))
    simp only [List.foldl_cons]
    exact ⟨hrest.1.trans hn.1, hrest.2.1.trans hn.2.1, hrest.2.2.trans hn.2.2⟩

lemma relLoop_skips (addr_4 : String) (cands : List OsmNode) :
    ∀ (rs : List OsmRel) (s : RelState),
      (∀ r ∈ rs, ¬(isBoundaryRel r.tags = true ∧ match_name addr_4 r.tags false = true)) →
      relLoop addr_4 cands s rs = s := by
  intro rs
  induction rs with
  | nil => intro s _; rfl
  | cons r rs ih =>
    intro s h
    have hr := h r (by simp)
    have hrest := ih s (fun x hx => h x (by simp [hx]))
    rw [relLoop]
    split
    · exact hrest
    · exact hrest

/-- C8: in local mode, a graph in which no node both carries a
place-candidate tag and fuzzy-matches the segment, and no
administrative/historic boundary relation fuzzy-matches the segment,
resolves to the sentinels `node_id = -1`, `boundary_id = -1` with no
corrected coordinate. -/
theorem resolver_sentinel_empty (addr_4 : String) (g : OsmGraph)
    (hn : ∀ n ∈ g.nodes, ¬(isPlaceCand n.tags = true ∧ match_name addr_4 n.tags false = true))
    (hr : ∀ r ∈ g.relations, ¬(isBoundaryRel r.tags = true ∧ match_name addr_4 r.tags false = true)) :
    infer_node_and_boundary_local addr_4 g = (-1, -1, none, none) := by
  have h1 := nodeFold_preserves addr_4 g.nodes ⟨-1, none, none, []⟩ hn
  have h2 := relLoop_skips addr_4 (nodePassState addr_4 g).cands g.relations
    ⟨(nodePassState addr_4 g).nodeId, (nodePassState addr_4 g).nodeLon,
     (nodePassState addr_4 g).nodeLat, -1⟩ hr
  simp only [infer_node_and_boundary_local, relPassState, h2]
  simp only [nodePassState] at h1 ⊢
  rw [h1.1, h1.2.1, h1.2.2]

/-- A graph with one non-candidate named node and one boundary relation
whose name does not contain the segment. -/
def gNoMatch : OsmGraph :=
  ⟨[⟨5, 0, 0, [("name", "alpha"), ("place", "town")]⟩], [],
   [⟨7, [("name", "beta"), ("boundary", "administrative")], []⟩]⟩

/-- Witness for C8: resolving segment `"gamma"` against `gNoMatch` yields
both sentinels and no coordinate. -/
theorem resolver_sentinel_empty_witness :
    infer_node_and_boundary_local "gamma" gNoMatch = (-1, -1, none, none) :=
  resolver_sentinel_empty "gamma" gNoMatch (by decide) (by decide)
